import Mathlib

/-!
# Verification of the voices-V2 conversation turn-taking core

Shallow embedding of the per-session conversation-state machine of the
practice/interview pages (`src/app/practice/[scenarioId]/page.tsx` and the
two unnamed page sources): conversation state, turn gate, agent selection,
response scheduling, speech-debounce, send-message and end-session handlers,
and the external-endpoint error path.

The library module `@/lib/agent-responses` (conversation-state transitions,
turn gate, agent selector, response delay) is imported by the pages but its
source is not part of the repository snapshot; those definitions are
modelled from the specification and are marked as such in their doc
comments.  Everything else is translated from the page sources.
-/

namespace Voices

/-- `ConversationState` from the data model: turn index plus the
awaiting-agent-turn flag. -/
structure ConversationState where
  turnIndex : Nat
  awaitingAgentTurn : Bool
deriving Repr, DecidableEq

/-- Modelled from the spec: `initConversationState()` from
`@/lib/agent-responses` (module source absent from the snapshot) returns
`{turnIndex: 0, awaitingAgentTurn: false}`. -/
def initConversationState : ConversationState :=
  { turnIndex := 0, awaitingAgentTurn := false }

/-- Modelled from the spec: `updateStateOnUserMessage(state)` from
`@/lib/agent-responses` returns a new state with `awaitingAgentTurn = true`
and `turnIndex` unchanged. -/
def updateStateOnUserMessage (s : ConversationState) : ConversationState :=
  { s with awaitingAgentTurn := true }

/-- Modelled from the spec: `advanceAfterAgentResponse(state, agentId)` from
`@/lib/agent-responses` returns a new state with `turnIndex + 1` and
`awaitingAgentTurn = false`. -/
def advanceAfterAgentResponse (s : ConversationState) (_agentId : String) :
    ConversationState :=
  { turnIndex := s.turnIndex + 1, awaitingAgentTurn := false }

/-- Modelled from the spec: `canGenerateAgentResponse(state)` from
`@/lib/agent-responses` is true iff `awaitingAgentTurn` is true. -/
def canGenerateAgentResponse (s : ConversationState) : Bool :=
  s.awaitingAgentTurn

/-- `Message` as built by the pages: id, speaker id and display name,
content, timestamp, user flag. -/
structure Message where
  id : String
  agentId : String
  agentName : String
  content : String
  timestamp : Nat
  isUser : Bool
deriving Repr, DecidableEq

/-- `Agent` as used by the pages: id, display name, personality, voice. -/
structure Agent where
  id : String
  name : String
  personality : String
  voiceId : String
deriving Repr, DecidableEq

/-- Scenario descriptor (only the fields the scheduler reads). -/
structure Scenario where
  id : String
  scenarioType : String
deriving Repr, DecidableEq

/-- Difficulty levels. -/
inductive DifficultyLevel
  | easy
  | medium
  | hard
deriving Repr, DecidableEq

/-- The only agent-selection strategy observed at call sites. -/
inductive SelectionStrategy
  | activeHost
deriving Repr, DecidableEq

/-! ## Agent selector (spec-modelled: `@/lib/agent-responses` is absent) -/

/-- Speaker id of the most recent non-user message in the history, if any. -/
def lastAgentSpeakerId (history : List Message) : Option String :=
  (history.reverse.find? (fun m => !m.isUser)).map Message.agentId

/-- Index of the most recent message in `history` spoken by agent `a`,
if `a` has spoken at all. -/
def lastSpokeIndex (history : List Message) (a : Agent) : Option Nat :=
  ((List.range history.length).reverse).find?
    (fun i =>
      match history.get? i with
      | some m => !m.isUser && m.agentId == a.id
      | none => false)

/-- Recency key used for the least-recently-spoken tie-break: agents who
never spoke are most stale (key 0); otherwise one plus the index of the
agent's latest message. -/
def recencyKey (history : List Message) (a : Agent) : Nat :=
  match lastSpokeIndex history a with
  | none => 0
  | some i => i + 1

/-- Picks out of a candidate list the agent with the smallest recency key;
on a tie the earlier list position wins. -/
def pickLeastRecent (history : List Message) : List Agent → Option Agent
  | [] => none
  | a :: rest =>
    match pickLeastRecent history rest with
    | none => some a
    | some b =>
      if recencyKey history b < recencyKey history a then some b else some a

/-- Candidate pool for the `active-host` strategy: with more than one agent
the most recent non-user speaker is excluded (falling back to the full list
if that would leave nobody). -/
def selectionPool (history : List Message) (agents : List Agent) :
    List Agent :=
  if 1 < agents.length then
    match lastAgentSpeakerId history with
    | some lastId =>
      let remaining := agents.filter (fun a => a.id != lastId)
      if remaining.isEmpty then agents else remaining
    | none => agents
  else agents

/-- Modelled from the spec:
`selectAgentToSpeak(messageHistory, scenario, agents, strategy)` from
`@/lib/agent-responses` (module source absent from the snapshot).  Returns
`none` if `agents` is empty; for the `active-host` strategy it avoids
immediate repetition of the most recent non-user speaker when more than one
agent exists, preferring the least-recently-spoken agent and breaking full
ties by list position. -/
def selectAgentToSpeak (history : List Message) (_scenario : Scenario)
    (agents : List Agent) (_strategy : SelectionStrategy) : Option Agent :=
  match agents with
  | [] => none
  | _ :: _ => pickLeastRecent history (selectionPool history agents)

/-! ## Response delay (spec-modelled: `@/lib/agent-responses` is absent) -/

/-- Centre of the documented delay band per difficulty:
easy 8000 ms, medium 5000 ms, hard 3000 ms. -/
def baseDelay : DifficultyLevel → Nat
  | .easy => 8000
  | .medium => 5000
  | .hard => 3000

/-- Half-width of the jitter band around the base delay (implementation
choice permitted by the spec; must keep the delay inside the band). -/
def jitterBand : Nat := 1000

/-- Modelled from the spec: `getResponseDelay(difficulty)` from
`@/lib/agent-responses` (module source absent from the snapshot) maps the
difficulty to a delay in the band `baseDelay ± jitterBand`; the randomness
is made explicit as the sample parameter `r`. -/
def getResponseDelay (d : DifficultyLevel) (r : Nat) : Nat :=
  baseDelay d - jitterBand + r % (2 * jitterBand + 1)

/-- Sum of `getResponseDelay` over one full pass of the jitter parameter;
proportional to the expected delay under uniform sampling. -/
def delaySampleSum (d : DifficultyLevel) : Nat :=
  ∑ r ∈ Finset.range (2 * jitterBand + 1), getResponseDelay d r

/-! ## Session machine of the practice page

Embedded from `scheduleAgentResponse`, `handleSendMessage` and
`handleEndSession` in the practice page sources (the unnamed page source
and `src/app/practice/[scenarioId]/page.tsx` share this code verbatim).
Browser timers become an explicit list of pending callbacks, each carrying
the agent and delay its closure captured; React refs
(`scheduledTurnRef`, `agentResponseTimers`) become ordinary fields read at
event time.  Media, TTS, score and persistence side effects are outside
the claims and are not modelled. -/

/-- Executable counterpart of JavaScript `String.prototype.trim`:
strips whitespace from both ends of the character list. -/
def trimString (s : String) : String :=
  ⟨((s.data.dropWhile Char.isWhitespace).reverse.dropWhile
    Char.isWhitespace).reverse⟩

/-- A pending `setTimeout` callback created by `scheduleAgentResponse`:
its closure captured the selected agent and the computed delay. -/
structure PendingTimer where
  agent : Agent
  delay : Nat
deriving Repr, DecidableEq

/-- The page-level state the scheduler, send handler and end handler read
and write. -/
structure SessionState where
  scenario : Scenario
  agents : List Agent
  messages : List Message
  convState : ConversationState
  userInput : String
  difficulty : DifficultyLevel
  sessionEnded : Bool
  isActive : Bool
  scheduledTurn : Option Nat
  timers : List PendingTimer
deriving Repr, DecidableEq

/-- Message record built by `addAgentMessage`. -/
def agentMessage (sel : Agent) (content : String) (now : Nat) : Message :=
  { id := "msg-" ++ toString now, agentId := sel.id, agentName := sel.name,
    content := content, timestamp := now, isUser := false }

/-- User message record built by `handleSendMessage`. -/
def userMessage (content : String) (now : Nat) : Message :=
  { id := "msg-" ++ toString now, agentId := "user", agentName := "You",
    content := content, timestamp := now, isUser := true }

/-- `scheduleAgentResponse(stateSnapshot)`: no-op when agents are absent or
the session ended, when the Turn Gate denies the snapshot, or when a
schedule for the same turn index already exists; otherwise records the
snapshot's turn index in the scheduled-turn marker and registers a timer
for the selected agent with the difficulty's delay (`r` is the jitter
sample consumed by `getResponseDelay`).  If selection fails the marker is
reset and no timer is registered. -/
def scheduleAgentResponse (st : SessionState) (snapshot : ConversationState)
    (r : Nat) : SessionState :=
  if st.agents = [] ∨ st.sessionEnded = true then st
  else if canGenerateAgentResponse snapshot = false then st
  else if st.scheduledTurn = some snapshot.turnIndex then st
  else
    match selectAgentToSpeak st.messages st.scenario st.agents
        .activeHost with
    | none => { st with scheduledTurn := none }
    | some sel =>
      { st with
          scheduledTurn := some snapshot.turnIndex,
          timers :=
            st.timers ++ [⟨sel, getResponseDelay st.difficulty r⟩] }

/-- Body of the `setTimeout` callback created by `scheduleAgentResponse`:
re-checks session end, the Turn Gate and the scheduled-turn marker against
the state current at fire time; if any check fails it returns without
touching the state, otherwise it appends the generated agent message,
advances the conversation state and clears the marker.  The generated
response text (the external text-generation collaborator's output) is
passed in as `response`. -/
def fireAgentTimer (st : SessionState) (sel : Agent) (response : String)
    (now : Nat) : SessionState :=
  if st.sessionEnded = true then st
  else if canGenerateAgentResponse st.convState = false then st
  else if st.scheduledTurn ≠ some st.convState.turnIndex then st
  else
    { st with
        messages := st.messages ++ [agentMessage sel response now],
        convState := advanceAfterAgentResponse st.convState sel.id,
        scheduledTurn := none }

/-- `handleSendMessage`: returns unchanged on empty (whitespace-only)
input; otherwise appends the user message, clears the input box, marks the
user turn pending and, when agents exist and the session is live, schedules
the agent response on the updated snapshot. -/
def handleSendMessage (st : SessionState) (r now : Nat) : SessionState :=
  if trimString st.userInput = "" then st
  else
    let st1 := { st with
      messages := st.messages ++ [userMessage st.userInput now],
      userInput := "" }
    let next := updateStateOnUserMessage st1.convState
    let st2 := { st1 with convState := next }
    if st2.agents ≠ [] ∧ st2.sessionEnded = false then
      scheduleAgentResponse st2 next r
    else st2

/-- `handleEndSession`: stops the session and synchronously clears every
outstanding agent-response timer. -/
def handleEndSession (st : SessionState) : SessionState :=
  { st with isActive := false, sessionEnded := true, timers := [] }

/-- The initial-greeting effect of the non-Gemini branch: appends the
welcome message spoken by the first agent and advances the conversation
state past that agent turn. -/
def greetingEffect (st : SessionState) (welcome : String) (now : Nat) :
    SessionState :=
  match st.agents with
  | [] => st
  | a0 :: _ =>
    { st with
        messages := st.messages ++ [agentMessage a0 welcome now],
        convState := advanceAfterAgentResponse st.convState a0.id }

/-! ## Interview page: endpoint failure handling and speech debounce -/

/-- Display role on the interview page. -/
inductive DisplayRole
  | user
  | assistant
deriving Repr, DecidableEq

/-- `DisplayMessage` of the interview page. -/
structure DisplayMessage where
  id : String
  role : DisplayRole
  content : String
  timestamp : Nat
deriving Repr, DecidableEq

/-- Role in the conversational-AI history. -/
inductive ConvRole
  | user
  | model
deriving Repr, DecidableEq

/-- One entry of the conversational-AI history. -/
structure ConversationMessage where
  role : ConvRole
  text : String
deriving Repr, DecidableEq

/-- Outcome of the awaited `/api/gemini/interview` call: the response text
with the updated history on success, or the thrown error's message on a
non-ok response or network failure. -/
inductive ApiResult
  | ok (response : String) (history : List ConversationMessage)
  | err (message : String)
deriving Repr, DecidableEq

/-- The interview page state `handleUserSpeech` reads and writes. -/
structure InterviewState where
  messages : List DisplayMessage
  conversationHistory : List ConversationMessage
  isProcessing : Bool
deriving Repr, DecidableEq

/-- The error chat text both pages build in their catch blocks. -/
def errorText (e : String) : String :=
  "Sorry, I encountered an error: " ++ e ++ ". Please try again."

/-- `handleUserSpeech` of the interview page: ignores empty input or
re-entry while processing; otherwise appends the user message and either
the assistant reply (updating the history) or, on failure, the error chat
message, always finishing with `isProcessing = false`. -/
def handleUserSpeech (st : InterviewState) (text : String) (api : ApiResult)
    (now : Nat) : InterviewState :=
  if trimString text = "" ∨ st.isProcessing = true then st
  else
    let afterUser : InterviewState := { st with
      messages := st.messages ++
        [{ id := "user-" ++ toString now, role := .user, content := text,
           timestamp := now }],
      isProcessing := true }
    match api with
    | .ok response history =>
      { afterUser with
          messages := afterUser.messages ++
            [{ id := "assistant-" ++ toString now, role := .assistant,
               content := response, timestamp := now }],
          conversationHistory := history,
          isProcessing := false }
    | .err e =>
      { afterUser with
          messages := afterUser.messages ++
            [{ id := "error-" ++ toString now, role := .assistant,
               content := errorText e, timestamp := now }],
          isProcessing := false }

/-- The practice page state `handleGeminiInterviewerResponse` reads and
writes. -/
structure GeminiPageState where
  messages : List Message
  geminiConversationHistory : List ConversationMessage
  isGeminiProcessing : Bool
  currentAgentIndex : Nat
  agents : List Agent
deriving Repr, DecidableEq

/-- The system error message the practice page appends in its catch
block. -/
def geminiErrorMessage (e : String) (now : Nat) : Message :=
  { id := "error-" ++ toString now, agentId := "system",
    agentName := "System", content := errorText e, timestamp := now,
    isUser := false }

/-- Fallback agent used when the practice page has no agents yet. -/
def fallbackAiAgent : Agent :=
  { id := "ai", name := "AI Interviewer", personality := "",
    voiceId := "b5f4515fd395410b9ed3aef6fa51d9a0" }

/-- `handleGeminiInterviewerResponse` of the practice page: no-op while a
request is in flight; on success appends the assistant message voiced by
the rotating agent, updates the history and advances the rotation; on
failure appends exactly the system error message; either way it finishes
with `isGeminiProcessing = false`. -/
def handleGeminiInterviewerResponse (st : GeminiPageState)
    (_userText : String) (api : ApiResult) (now : Nat) : GeminiPageState :=
  if st.isGeminiProcessing = true then st
  else
    match api with
    | .ok response history =>
      let aiAgent :=
        st.agents.getD (st.currentAgentIndex % st.agents.length)
          fallbackAiAgent
      { st with
          geminiConversationHistory := history,
          currentAgentIndex := st.currentAgentIndex + 1,
          messages := st.messages ++
            [{ id := "msg-" ++ toString now, agentId := aiAgent.id,
               agentName := aiAgent.name, content := response,
               timestamp := now, isUser := false }],
          isGeminiProcessing := false }
    | .err e =>
      { st with
          messages := st.messages ++ [geminiErrorMessage e now],
          isGeminiProcessing := false }

/-- Debounce threshold of the interview page's `onresult` handler
(1500 ms). -/
def interviewDebounceMs : Nat := 1500

/-- Debounce threshold of the practice page's `onresult` handler
(2000 ms). -/
def practiceDebounceMs : Nat := 2000

/-- Final-transcript branch of `recognition.onresult` on the interview
page: a non-empty final text is handed to `handleUserSpeech` only when
more than 1500 ms have passed since the last processed transcript; the
result is the processed text with the updated last-transcript time, or
`none` when the final result is dropped. -/
def interviewOnFinalResult (finalText : String) (now lastTime : Nat) :
    Option (String × Nat) :=
  if trimString finalText = "" then none
  else if interviewDebounceMs < now - lastTime then
    some (trimString finalText, now)
  else none

/-- Final-transcript branch of `recognition.onresult` on the practice
page: a non-empty final text becomes a user `Message` only when more than
2000 ms have passed since the last processed transcript; the result is
the appended message with the updated last-transcript time, or `none`
when the final result is dropped. -/
def practiceOnFinalResult (finalText : String) (now lastTime : Nat) :
    Option (Message × Nat) :=
  if trimString finalText = "" then none
  else if practiceDebounceMs < now - lastTime then
    some (userMessage (trimString finalText) now, now)
  else none

/-! ## Concrete example run (used by witnesses and the counterexample) -/

/-- Example agent list entry. -/
def exAgentA : Agent := ⟨"agent-1", "Alice", "friendly", "v1"⟩

/-- Example agent list entry. -/
def exAgentB : Agent := ⟨"agent-2", "Bob", "calm", "v2"⟩

/-- Example scenario. -/
def exScenario : Scenario := ⟨"job-interview", "job-interview"⟩

/-- Fresh session about to send its first user message. -/
def exStart : SessionState :=
  { scenario := exScenario, agents := [exAgentA, exAgentB], messages := [],
    convState := initConversationState, userInput := "Hello there",
    difficulty := .medium, sessionEnded := false, isActive := true,
    scheduledTurn := none, timers := [] }

/-- After the first user message: a timer is scheduled for turn index 0. -/
def exAfterFirstSend : SessionState := handleSendMessage exStart 0 1

/-- After the delayed initial greeting fires: the turn index advances to 1
while the turn-0 timer is still pending. -/
def exAfterGreeting : SessionState :=
  greetingEffect exAfterFirstSend "Hello! Welcome to the session." 2

/-- After a second user message: a second timer is scheduled for turn
index 1, overwriting the shared scheduled-turn marker. -/
def exAfterSecondSend : SessionState :=
  handleSendMessage { exAfterGreeting with userInput := "Another question" }
    0 3

end Voices

namespace Voices

/-- C4: for every conversation state `s`,
`canGenerateAgentResponse (updateStateOnUserMessage s)` is true, and
`updateStateOnUserMessage` sets `awaitingAgentTurn` to true while leaving
`turnIndex` unchanged. -/
theorem user_message_enables_turn_gate (s : ConversationState) :
    canGenerateAgentResponse (updateStateOnUserMessage s) = true ∧
    (updateStateOnUserMessage s).awaitingAgentTurn = true ∧
    (updateStateOnUserMessage s).turnIndex = s.turnIndex := by
  refine ⟨rfl, rfl, rfl⟩

/-- C5: for every conversation state `s` and agent id `a`,
`canGenerateAgentResponse (advanceAfterAgentResponse (updateStateOnUserMessage s) a)`
is false, the resulting `turnIndex` is exactly `s.turnIndex + 1`, and
`awaitingAgentTurn` is false. -/
theorem advance_consumes_turn (s : ConversationState) (a : String) :
    canGenerateAgentResponse
      (advanceAfterAgentResponse (updateStateOnUserMessage s) a) = false ∧
    (advanceAfterAgentResponse (updateStateOnUserMessage s) a).turnIndex =
      s.turnIndex + 1 ∧
    (advanceAfterAgentResponse (updateStateOnUserMessage s) a).awaitingAgentTurn
      = false := by
  refine ⟨rfl, rfl, rfl⟩

/-! ### Agent selector lemmas -/

/-- The least-recent pick always comes from the candidate list. -/
theorem pickLeastRecent_mem (history : List Message) (l : List Agent) :
    ∀ a : Agent, pickLeastRecent history l = some a → a ∈ l := by
  induction l with
  | nil => intro a h; simp [pickLeastRecent] at h
  | cons x rest ih =>
    intro a h
    have hx : pickLeastRecent history (x :: rest)
        = match pickLeastRecent history rest with
          | none => some x
          | some b =>
            if recencyKey history b < recencyKey history x
            then some b else some x := rfl
    cases hrec : pickLeastRecent history rest with
    | none =>
      have hx2 : pickLeastRecent history (x :: rest) = some x := by
        rw [hx, hrec]
      rw [hx2] at h
      injection h with h
      subst h
      exact List.mem_cons_self x rest
    | some b =>
      have hx2 : pickLeastRecent history (x :: rest)
          = if recencyKey history b < recencyKey history x
            then some b else some x := by
        rw [hx, hrec]
      rw [hx2] at h
      by_cases hk : recencyKey history b < recencyKey history x
      · rw [if_pos hk] at h
        injection h with h
        subst h
        exact List.mem_cons_of_mem x (ih b hrec)
      · rw [if_neg hk] at h
        injection h with h
        subst h
        exact List.mem_cons_self x rest

/-- The least-recent pick succeeds on a non-empty candidate list. -/
theorem pickLeastRecent_isSome (history : List Message) (l : List Agent)
    (h : l ≠ []) : (pickLeastRecent history l).isSome = true := by
  cases l with
  | nil => exact absurd rfl h
  | cons x rest =>
    have hx : pickLeastRecent history (x :: rest)
        = match pickLeastRecent history rest with
          | none => some x
          | some b =>
            if recencyKey history b < recencyKey history x
            then some b else some x := rfl
    rw [hx]
    cases pickLeastRecent history rest with
    | none => rfl
    | some b =>
      dsimp only
      split <;> rfl

/-- With at least two agents of pairwise-distinct ids, every member of the
`active-host` candidate pool differs from the most recent agent speaker. -/
theorem selectionPool_avoids_last (history : List Message)
    (agents : List Agent) (lastId : String)
    (hlen : 2 ≤ agents.length)
    (hnodup : (agents.map Agent.id).Nodup)
    (hlast : lastAgentSpeakerId history = some lastId) :
    ∀ a ∈ selectionPool history agents, a.id ≠ lastId := by
  have hfilter :
      agents.filter (fun a => a.id != lastId) ≠ [] := by
    intro hnil
    have hall : ∀ a ∈ agents, a.id = lastId := by
      intro a ha
      have := List.filter_eq_nil_iff.mp hnil a ha
      simpa using this
    match agents, hlen, hnodup with
    | a :: b :: t, _, hnodup =>
      have hab : a.id ≠ b.id := by
        simp only [List.map_cons, List.nodup_cons, List.mem_cons,
          List.mem_map] at hnodup
        intro heq
        exact hnodup.1 (Or.inl heq)
      exact hab ((hall a (by simp)).trans (hall b (by simp)).symm)
  intro a ha
  unfold selectionPool at ha
  rw [if_pos (by omega), hlast] at ha
  simp only [List.isEmpty_iff] at ha
  rw [if_neg hfilter] at ha
  have := List.mem_filter.mp ha
  simpa using this.2

/-- C7: with the `active-host` strategy the selector never repeats the most
recent non-user speaker when there are at least two (distinct-id) agents,
and it returns `none` on an empty agent list. -/
theorem agent_selector_no_repeat (history : List Message)
    (scenario : Scenario) (agents : List Agent) (lastId : String)
    (sel : Agent)
    (hlen : 2 ≤ agents.length)
    (hnodup : (agents.map Agent.id).Nodup)
    (hlast : lastAgentSpeakerId history = some lastId)
    (hsel : selectAgentToSpeak history scenario agents .activeHost =
      some sel) :
    sel.id ≠ lastId ∧
    selectAgentToSpeak history scenario [] .activeHost = none := by
  refine ⟨?_, rfl⟩
  have hmem : sel ∈ selectionPool history agents := by
    match agents, hlen, hsel with
    | a :: rest, _, hsel =>
      exact pickLeastRecent_mem history _ sel hsel
  exact selectionPool_avoids_last history agents lastId hlen hnodup hlast
    sel hmem

/-- Witness for C7: after Alice spoke last, the selector picks Bob. -/
theorem agent_selector_no_repeat_witness :
    exAgentB.id ≠ "agent-1" ∧
    selectAgentToSpeak [userMessage "Hi" 1, agentMessage exAgentA "Hello" 2]
      exScenario [] .activeHost = none :=
  agent_selector_no_repeat
    [userMessage "Hi" 1, agentMessage exAgentA "Hello" 2] exScenario
    [exAgentA, exAgentB] "agent-1" exAgentB
    (by decide) (by decide) (by decide) (by decide)

/-! ### Response delay -/

/-- The sample sum over one uniform pass equals the sample count times the
band centre, so the expected delay is exactly `baseDelay`. -/
theorem delaySampleSum_eq (d : DifficultyLevel) :
    delaySampleSum d = (2 * jitterBand + 1) * baseDelay d := by
  have hmod : ∀ r ∈ Finset.range (2 * jitterBand + 1),
      getResponseDelay d r = (baseDelay d - jitterBand) + r := by
    intro r hr
    have hlt : r < 2 * jitterBand + 1 := Finset.mem_range.mp hr
    simp [getResponseDelay, Nat.mod_eq_of_lt hlt]
  rw [delaySampleSum, Finset.sum_congr rfl hmod, Finset.sum_add_distrib,
    Finset.sum_const, Finset.card_range, Finset.sum_range_id]
  cases d <;> simp [baseDelay, jitterBand]

/-- C8: every delay stays inside the documented band
`baseDelay ± jitterBand` of its difficulty, and over a uniform pass of the
jitter parameter the easy sample sum dominates medium, which dominates
hard (so the same holds in expectation). -/
theorem response_delay_band_and_order (d : DifficultyLevel) (r : Nat) :
    baseDelay d - jitterBand ≤ getResponseDelay d r ∧
    getResponseDelay d r ≤ baseDelay d + jitterBand ∧
    delaySampleSum .medium ≤ delaySampleSum .easy ∧
    delaySampleSum .hard ≤ delaySampleSum .medium := by
  have hr : r % (2 * jitterBand + 1) ≤ 2 * jitterBand :=
    Nat.le_of_lt_succ (Nat.mod_lt _ (by omega))
  refine ⟨Nat.le_add_right _ _, ?_, ?_, ?_⟩
  · unfold getResponseDelay
    cases d <;> simp only [baseDelay, jitterBand] at hr ⊢ <;> omega
  · rw [delaySampleSum_eq, delaySampleSum_eq]
    simp [baseDelay, jitterBand]
  · rw [delaySampleSum_eq, delaySampleSum_eq]
    simp [baseDelay, jitterBand]

/-! ### Scheduler branch lemmas -/

/-- Scheduling is a no-op without agents or after session end. -/
theorem scheduleAgentResponse_of_guard (st : SessionState)
    (snap : ConversationState) (r : Nat)
    (h : st.agents = [] ∨ st.sessionEnded = true) :
    scheduleAgentResponse st snap r = st := by
  unfold scheduleAgentResponse
  rw [if_pos h]

/-- Scheduling is a no-op when the Turn Gate denies the snapshot. -/
theorem scheduleAgentResponse_of_gate (st : SessionState)
    (snap : ConversationState) (r : Nat)
    (h1 : ¬(st.agents = [] ∨ st.sessionEnded = true))
    (h2 : canGenerateAgentResponse snap = false) :
    scheduleAgentResponse st snap r = st := by
  unfold scheduleAgentResponse
  rw [if_neg h1, if_pos h2]

/-- Scheduling is a no-op when a schedule for the same turn index already
exists. -/
theorem scheduleAgentResponse_of_dup (st : SessionState)
    (snap : ConversationState) (r : Nat)
    (h1 : ¬(st.agents = [] ∨ st.sessionEnded = true))
    (h2 : ¬canGenerateAgentResponse snap = false)
    (h3 : st.scheduledTurn = some snap.turnIndex) :
    scheduleAgentResponse st snap r = st := by
  unfold scheduleAgentResponse
  rw [if_neg h1, if_neg h2, if_pos h3]

/-- When no agent can be selected the marker is reset and no timer is
registered. -/
theorem scheduleAgentResponse_of_none (st : SessionState)
    (snap : ConversationState) (r : Nat)
    (h1 : ¬(st.agents = [] ∨ st.sessionEnded = true))
    (h2 : ¬canGenerateAgentResponse snap = false)
    (h3 : ¬st.scheduledTurn = some snap.turnIndex)
    (hsel : selectAgentToSpeak st.messages st.scenario st.agents
      .activeHost = none) :
    scheduleAgentResponse st snap r = { st with scheduledTurn := none } := by
  unfold scheduleAgentResponse
  rw [if_neg h1, if_neg h2, if_neg h3, hsel]

/-- A successful schedule records the snapshot's turn index and registers
one timer for the selected agent. -/
theorem scheduleAgentResponse_of_some (st : SessionState)
    (snap : ConversationState) (r : Nat) (sel : Agent)
    (h1 : ¬(st.agents = [] ∨ st.sessionEnded = true))
    (h2 : ¬canGenerateAgentResponse snap = false)
    (h3 : ¬st.scheduledTurn = some snap.turnIndex)
    (hsel : selectAgentToSpeak st.messages st.scenario st.agents
      .activeHost = some sel) :
    scheduleAgentResponse st snap r =
      { st with
          scheduledTurn := some snap.turnIndex,
          timers :=
            st.timers ++ [⟨sel, getResponseDelay st.difficulty r⟩] } := by
  unfold scheduleAgentResponse
  rw [if_neg h1, if_neg h2, if_neg h3, hsel]

/-- Scheduling never changes the session-ended flag. -/
theorem scheduleAgentResponse_sessionEnded (st : SessionState)
    (snap : ConversationState) (r : Nat) :
    (scheduleAgentResponse st snap r).sessionEnded = st.sessionEnded := by
  unfold scheduleAgentResponse
  split
  · rfl
  split
  · rfl
  split
  · rfl
  split <;> rfl

/-- A timer fire never changes the session-ended flag. -/
theorem fireAgentTimer_sessionEnded (st : SessionState) (sel : Agent)
    (response : String) (now : Nat) :
    (fireAgentTimer st sel response now).sessionEnded = st.sessionEnded := by
  unfold fireAgentTimer
  split
  · rfl
  split
  · rfl
  split <;> rfl

/-- Sending a message never changes the session-ended flag. -/
theorem handleSendMessage_sessionEnded (st : SessionState) (r now : Nat) :
    (handleSendMessage st r now).sessionEnded = st.sessionEnded := by
  unfold handleSendMessage
  split
  · rfl
  dsimp only
  split
  · rw [scheduleAgentResponse_sessionEnded]
  · rfl

/-- The candidate pool is non-empty whenever the agent list is. -/
theorem selectionPool_ne_nil (history : List Message)
    (agents : List Agent) (h : agents ≠ []) :
    selectionPool history agents ≠ [] := by
  unfold selectionPool
  by_cases hlen : 1 < agents.length
  · rw [if_pos hlen]
    cases hl : lastAgentSpeakerId history with
    | none => exact h
    | some lastId =>
      dsimp only
      by_cases he : (agents.filter (fun a => a.id != lastId)).isEmpty = true
      · rw [if_pos he]
        exact h
      · rw [if_neg he]
        intro hnil
        exact he (by rw [hnil]; rfl)
  · rw [if_neg hlen]
    exact h

/-- Selection succeeds whenever the agent list is non-empty. -/
theorem selectAgentToSpeak_isSome (history : List Message)
    (scenario : Scenario) (agents : List Agent)
    (strategy : SelectionStrategy) (h : agents ≠ []) :
    (selectAgentToSpeak history scenario agents strategy).isSome = true := by
  cases agents with
  | nil => exact absurd rfl h
  | cons x rest =>
    unfold selectAgentToSpeak
    exact pickLeastRecent_isSome history _
      (selectionPool_ne_nil history (x :: rest) h)

/-! ### Claims about the session machine -/

/-- C10: sending with empty or whitespace-only input changes nothing:
no message is appended, the conversation state is untouched and no agent
response is scheduled. -/
theorem empty_input_send_is_noop (st : SessionState) (r now : Nat)
    (h : trimString st.userInput = "") :
    handleSendMessage st r now = st := by
  unfold handleSendMessage
  rw [if_pos h]

/-- Witness for C10 at a whitespace-only input box. -/
theorem empty_input_send_is_noop_witness :
    handleSendMessage { exStart with userInput := "   " } 0 7
      = { exStart with userInput := "   " } :=
  empty_input_send_is_noop { exStart with userInput := "   " } 0 7
    (by decide)

/-- C1 (amended): the fire-time check compares the current scheduled-turn
marker (a shared ref, not a per-timer captured turn index) with the
current turn index; whenever the session has ended, the Turn Gate denies,
or the marker differs from the current turn index, the callback returns
the state unchanged — zero messages appended, no error. -/
theorem timer_fire_guard_aborts_silently (st : SessionState) (sel : Agent)
    (response : String) (now : Nat)
    (h : st.sessionEnded = true ∨
      canGenerateAgentResponse st.convState = false ∨
      st.scheduledTurn ≠ some st.convState.turnIndex) :
    fireAgentTimer st sel response now = st := by
  unfold fireAgentTimer
  by_cases h1 : st.sessionEnded = true
  · rw [if_pos h1]
  · rw [if_neg h1]
    by_cases h2 : canGenerateAgentResponse st.convState = false
    · rw [if_pos h2]
    · rw [if_neg h2]
      rcases h with h | h | h
      · exact absurd h h1
      · exact absurd h h2
      · rw [if_pos h]

/-- Witness for the amended C1: the turn-0 timer fires after the greeting
advanced the turn index to 1 (marker still 0, gate closed) and aborts
without appending. -/
theorem timer_fire_guard_aborts_silently_witness :
    fireAgentTimer exAfterGreeting exAgentA "Good point." 5
      = exAfterGreeting :=
  timer_fire_guard_aborts_silently exAfterGreeting exAgentA "Good point." 5
    (Or.inr (Or.inl (by decide)))

/-- C1 counterexample: run the embedded handlers from a fresh session.
The first user message schedules a timer while the turn index is 0; the
delayed greeting advances the turn index to 1; a second user message
schedules a second timer, overwriting the shared scheduled-turn marker
with 1.  When the first (stale) timer now fires — after the turn index
advanced past its scheduling turn — its callback passes every fire-time
check and appends one message instead of the zero the claim requires,
because the check compares the shared marker rather than a turn index
captured by that timer. -/
theorem stale_timer_can_still_append :
    exAfterFirstSend.convState.turnIndex = 0 ∧
    exAfterFirstSend.timers =
      [⟨exAgentA, getResponseDelay .medium 0⟩] ∧
    exAfterSecondSend.convState.turnIndex = 1 ∧
    exAfterSecondSend.timers.head? =
      some ⟨exAgentA, getResponseDelay .medium 0⟩ ∧
    (fireAgentTimer exAfterSecondSend exAgentA "Good point." 6).messages.length
      = exAfterSecondSend.messages.length + 1 := by
  decide

/-- C2: scheduling twice for the same snapshot is idempotent (the second
call is a no-op on the whole state, so no second timer appears); a
successful first schedule registers exactly one timer; and a successful
fire appends exactly one message. -/
theorem schedule_idempotent_single_fire (st : SessionState)
    (snap : ConversationState) (r1 r2 : Nat) (sel : Agent)
    (response : String) (now : Nat) :
    scheduleAgentResponse (scheduleAgentResponse st snap r1) snap r2
      = scheduleAgentResponse st snap r1 ∧
    (st.agents ≠ [] → st.sessionEnded = false →
      canGenerateAgentResponse snap = true →
      st.scheduledTurn ≠ some snap.turnIndex →
      (scheduleAgentResponse st snap r1).timers.length
        = st.timers.length + 1) ∧
    (st.sessionEnded = false →
      canGenerateAgentResponse st.convState = true →
      st.scheduledTurn = some st.convState.turnIndex →
      (fireAgentTimer st sel response now).messages.length
        = st.messages.length + 1) := by
  refine ⟨?_, ?_, ?_⟩
  · by_cases h1 : st.agents = [] ∨ st.sessionEnded = true
    · rw [scheduleAgentResponse_of_guard st snap r1 h1,
        scheduleAgentResponse_of_guard st snap r2 h1]
    · by_cases h2 : canGenerateAgentResponse snap = false
      · rw [scheduleAgentResponse_of_gate st snap r1 h1 h2,
          scheduleAgentResponse_of_gate st snap r2 h1 h2]
      · by_cases h3 : st.scheduledTurn = some snap.turnIndex
        · rw [scheduleAgentResponse_of_dup st snap r1 h1 h2 h3,
            scheduleAgentResponse_of_dup st snap r2 h1 h2 h3]
        · cases hsel : selectAgentToSpeak st.messages st.scenario
              st.agents .activeHost with
          | none =>
            rw [scheduleAgentResponse_of_none st snap r1 h1 h2 h3 hsel,
              scheduleAgentResponse_of_none { st with scheduledTurn := none }
                snap r2 h1 h2 (by simp) hsel]
          | some sel2 =>
            rw [scheduleAgentResponse_of_some st snap r1 sel2 h1 h2 h3 hsel]
            exact scheduleAgentResponse_of_dup _ snap r2 h1 h2 rfl
  · intro ha he hc hs
    have hsome := selectAgentToSpeak_isSome st.messages st.scenario
      st.agents .activeHost ha
    obtain ⟨sel2, hsel⟩ := Option.isSome_iff_exists.mp hsome
    rw [scheduleAgentResponse_of_some st snap r1 sel2
      (by simp [ha, he]) (by simp [hc]) hs hsel]
    simp
  · intro he hc hs
    unfold fireAgentTimer
    rw [if_neg (by simp [he]), if_neg (by simp [hc]),
      if_neg (by simp [hs])]
    simp

/-- Witness for C2: re-scheduling the pending turn-1 snapshot is a no-op,
the first schedule added exactly one timer, and the pending turn-0 fire
appends exactly one message. -/
theorem schedule_idempotent_single_fire_witness :
    scheduleAgentResponse
        (scheduleAgentResponse exAfterFirstSend ⟨1, true⟩ 0) ⟨1, true⟩ 0
      = scheduleAgentResponse exAfterFirstSend ⟨1, true⟩ 0 ∧
    (scheduleAgentResponse exAfterFirstSend ⟨1, true⟩ 0).timers.length
      = exAfterFirstSend.timers.length + 1 ∧
    (fireAgentTimer exAfterFirstSend exAgentA "Nice to meet you." 5).messages.length
      = exAfterFirstSend.messages.length + 1 := by
  obtain ⟨h1, h2, h3⟩ := schedule_idempotent_single_fire exAfterFirstSend
    ⟨1, true⟩ 0 0 exAgentA "Nice to meet you." 5
  exact ⟨h1, h2 (by decide) (by decide) (by decide) (by decide),
    h3 (by decide) (by decide) (by decide)⟩

/-- C3: `handleEndSession` sets the session-ended flag and synchronously
clears every outstanding agent-response timer; a timer firing in any
ended state returns the state unchanged (no message appended); and
neither scheduling nor sending ever resets the flag, so the invalidation
is permanent. -/
theorem end_session_cancels_schedules (st st2 : SessionState) (sel : Agent)
    (response : String) (r now : Nat) (snap : ConversationState)
    (hEnded : st2.sessionEnded = true) :
    (handleEndSession st).sessionEnded = true ∧
    (handleEndSession st).timers = [] ∧
    fireAgentTimer st2 sel response now = st2 ∧
    (scheduleAgentResponse st2 snap r).sessionEnded = true ∧
    (handleSendMessage st2 r now).sessionEnded = true := by
  refine ⟨rfl, rfl, ?_, ?_, ?_⟩
  · unfold fireAgentTimer
    rw [if_pos hEnded]
  · rw [scheduleAgentResponse_sessionEnded]
    exact hEnded
  · rw [handleSendMessage_sessionEnded]
    exact hEnded

/-- Witness for C3: a late fire against the ended example session leaves
it unchanged. -/
theorem end_session_cancels_schedules_witness :
    fireAgentTimer (handleEndSession exAfterSecondSend) exAgentA
        "Late reply." 9
      = handleEndSession exAfterSecondSend :=
  (end_session_cancels_schedules exStart
    (handleEndSession exAfterSecondSend) exAgentA "Late reply." 0 9
    initConversationState (by decide)).2.2.1

/-- C6: when the conversational-AI call fails (non-ok response or thrown
error), each page's handler appends exactly one chat message whose content
is the error text — which extends the prefix
"Sorry, I encountered an error: " — leaves the conversation history and
rotation untouched, and clears its processing flag, so the session
continues. -/
theorem endpoint_failure_surfaces_error (ist : InterviewState)
    (gst : GeminiPageState) (text e : String) (now : Nat)
    (htext : trimString text ≠ "") (hproc : ist.isProcessing = false)
    (hgproc : gst.isGeminiProcessing = false) :
    ((handleUserSpeech ist text (.err e) now).messages
        = ist.messages ++
          [{ id := "user-" ++ toString now, role := .user, content := text,
             timestamp := now },
           { id := "error-" ++ toString now, role := .assistant,
             content := errorText e, timestamp := now }] ∧
      (handleUserSpeech ist text (.err e) now).conversationHistory
        = ist.conversationHistory ∧
      (handleUserSpeech ist text (.err e) now).isProcessing = false) ∧
    ((handleGeminiInterviewerResponse gst text (.err e) now).messages
        = gst.messages ++ [geminiErrorMessage e now] ∧
      (handleGeminiInterviewerResponse gst text
          (.err e) now).geminiConversationHistory
        = gst.geminiConversationHistory ∧
      (handleGeminiInterviewerResponse gst text (.err e) now).currentAgentIndex
        = gst.currentAgentIndex ∧
      (handleGeminiInterviewerResponse gst text (.err e) now).isGeminiProcessing
        = false) ∧
    (∃ rest, errorText e = "Sorry, I encountered an error: " ++ rest) := by
  have hg : ¬(trimString text = "" ∨ ist.isProcessing = true) := by
    simp [htext, hproc]
  refine ⟨?_, ?_, ⟨e ++ ". Please try again.", ?_⟩⟩
  · unfold handleUserSpeech
    rw [if_neg hg]
    exact ⟨by simp, rfl, rfl⟩
  · unfold handleGeminiInterviewerResponse
    rw [if_neg (by simp [hgproc])]
    exact ⟨rfl, rfl, rfl, rfl⟩
  · simp [errorText, String.append_assoc]

/-- Witness for C6 on a concrete failed call. -/
theorem endpoint_failure_surfaces_error_witness :
    (handleGeminiInterviewerResponse ⟨[], [], false, 0, [exAgentA]⟩
        "I think so" (.err "Network down") 4).messages
      = [geminiErrorMessage "Network down" 4] ∧
    (handleUserSpeech ⟨[], [], false⟩ "I think so"
        (.err "Network down") 4).isProcessing = false := by
  have h := endpoint_failure_surfaces_error ⟨[], [], false⟩
    ⟨[], [], false, 0, [exAgentA]⟩ "I think so" "Network down" 4
    (by decide) rfl rfl
  exact ⟨by simpa using h.2.1.1, h.1.2.2⟩

/-- C9: on both pages a final speech-recognition result becomes a user
message only when more than the page's debounce window has elapsed since
the last processed transcript (2000 ms on the practice page, 1500 ms on
the interview page); any final result arriving sooner is dropped without
appending anything. -/
theorem speech_debounce_thresholds (finalText : String)
    (now lastTime : Nat) :
    (now - lastTime < practiceDebounceMs →
      practiceOnFinalResult finalText now lastTime = none) ∧
    (∀ p, practiceOnFinalResult finalText now lastTime = some p →
      practiceDebounceMs ≤ now - lastTime) ∧
    (now - lastTime < interviewDebounceMs →
      interviewOnFinalResult finalText now lastTime = none) ∧
    (∀ p, interviewOnFinalResult finalText now lastTime = some p →
      interviewDebounceMs ≤ now - lastTime) := by
  refine ⟨?_, ?_, ?_, ?_⟩
  · intro h
    unfold practiceOnFinalResult
    split
    · rfl
    · rw [if_neg (by omega)]
  · intro p hp
    unfold practiceOnFinalResult at hp
    split at hp
    · simp at hp
    · split at hp
      · next hcond => exact le_of_lt hcond
      · simp at hp
  · intro h
    unfold interviewOnFinalResult
    split
    · rfl
    · rw [if_neg (by omega)]
  · intro p hp
    unfold interviewOnFinalResult at hp
    split at hp
    · simp at hp
    · split at hp
      · next hcond => exact le_of_lt hcond
      · simp at hp

/-- Witness for C9: a final result 800 ms after the previous one is
dropped by both pages. -/
theorem speech_debounce_thresholds_witness :
    practiceOnFinalResult "sounds good" 800 0 = none ∧
    interviewOnFinalResult "sounds good" 800 0 = none :=
  ⟨(speech_debounce_thresholds "sounds good" 800 0).1 (by decide),
    (speech_debounce_thresholds "sounds good" 800 0).2.2.1 (by decide)⟩

end Voices
